import Mathlib

set_option autoImplicit false

/-!
Shallow embedding of the interception-detector core (`src/lib.rs`): the
per-aircraft Track state (`Ac`), its creation (`Ac::new`) and update
(`Ac::update`), and the classification predicates (`is_fast_mover`,
`is_potential_toi`, `aircraft_is_on_ground`).

Modelling conventions:
* Timestamps (`DateTime<Utc>`) are integer seconds; durations are integer
  seconds (`std::time::Duration` values are natural numbers of seconds,
  `chrono::Duration` values are integers of seconds).
* Speeds (`f64` knots) are modelled as rationals: the code only compares
  speeds and takes maxima, and on non-NaN values those operations agree with
  the rational order.
* Altitudes (`i32` feet) are integers; the code only compares and stores them.
* The fallible constructor returns `Except`; the update method, which panics
  (`unwrap`) when the Snapshot lacks position data, returns `Option` with
  `none` modelling the panic.
-/

/-- Barometric altitude as reported by the feed: either the explicit
"on ground" marker or a numeric altitude in feet
(`adsbx_json::v2::AltitudeOrGround`). -/
inductive AltitudeOrGround where
  | OnGround : AltitudeOrGround
  | Altitude (alt : Int) : AltitudeOrGround
  deriving DecidableEq

/-- One aircraft surveillance Snapshot (`adsbx_json::v2::Aircraft`, a type of
an external crate, specified at the boundary by the spec's data model).
Fields are the ones the repository's code reads, plus `seen`, the elapsed
time since the aircraft was last heard from at all, which the spec's data
model lists as a distinct field from `seen_pos` (the elapsed time since the
position was last updated). -/
structure Aircraft where
  hex : String
  lon : Option ℚ
  lat : Option ℚ
  ground_speed_knots : Option ℚ
  geometric_altitude : Option Int
  barometric_altitude : Option AltitudeOrGround
  /-- elapsed seconds since the position was last updated (may be absent). -/
  seen_pos : Option Nat
  /-- elapsed seconds since the aircraft was last heard from at all. -/
  seen : Nat
  deriving DecidableEq

/-- Modelled from the spec: the repository's `error` module (`src/error.rs`)
is not among the sources. Its variants are reconstructed from the spec's
error kinds (source-level decode errors, aircraft-level `MissingData`,
ingestion-layer concurrency errors) and from how `src/lib.rs` constructs
them: each carries a message string, and the aircraft-level variant is
`Error::AircraftMissingData(String)`. -/
inductive Error where
  | JsonLoadError (msg : String)
  | AircraftMissingData (msg : String)
  | ParallelMapError (msg : String)
  deriving DecidableEq

/-- Turns an altitude into a number (where ground is 0) (`alt_number`). -/
def alt_number : AltitudeOrGround → Int
  | AltitudeOrGround.OnGround => 0
  | AltitudeOrGround.Altitude alt => alt

/-- The speed threshold to be considered an interceptor. -/
def INTERCEPTOR_MIN_SPEED_KTS : ℚ := 350

/-- Upper bound of the target-of-interest speed band. -/
def TARGET_MAX_SPEED_KTS : ℚ := 250

/-- Lower bound of the target-of-interest speed band. -/
def TARGET_MIN_SPEED_KTS : ℚ := 80

/-- The length of time (minutes) an interceptor must travel below the
threshold to lose interceptor status. -/
def INTERCEPTOR_TIMEOUT_MINS : Int := 3

/-- Per-aircraft Track state (struct `Ac`). `coords` is the position history,
oldest first, each entry a timestamp paired with longitude and latitude. -/
structure Ac where
  hex : String
  coords : List (Int × ℚ × ℚ)
  max_speed : ℚ
  cur_speed : ℚ
  cur_alt : Int
  is_on_ground : Bool
  time_seen_fast : Option Int
  fast_count : Nat
  seen : Int
  deriving DecidableEq

/-- Checks whether an aircraft seems to be on the ground, or very close to it
(`aircraft_is_on_ground`). -/
def aircraft_is_on_ground (aircraft : Aircraft) : Bool :=
  (match aircraft.barometric_altitude with
    | some b => decide (b = AltitudeOrGround.OnGround)
    | none => false)
  || (match aircraft.geometric_altitude with
    | some alt => decide (alt < 500)
    | none => false)

/-- Builds a new Track from a Snapshot (`Ac::new`). Fails when position,
ground speed, geometric altitude or `seen_pos` is absent. -/
def Ac.new (now : Int) (aircraft : Aircraft) : Except Error Ac :=
  match aircraft.lon, aircraft.lat with
  | some lon, some lat =>
    match aircraft.ground_speed_knots with
    | some spd =>
      match aircraft.geometric_altitude with
      | some alt =>
        match aircraft.seen_pos with
        | some seen_pos =>
          let is_fast : Bool := decide (spd > INTERCEPTOR_MIN_SPEED_KTS)
          Except.ok
            { hex := aircraft.hex
              coords := [(now, lon, lat)]
              max_speed := spd
              cur_speed := spd
              cur_alt := alt
              is_on_ground := aircraft_is_on_ground aircraft
              time_seen_fast :=
                if is_fast then some (now - (seen_pos : Int)) else none
              fast_count := if is_fast then 1 else 0
              seen := now - (seen_pos : Int) }
        | none =>
          Except.error (Error.AircraftMissingData
            ("Aircraft " ++ aircraft.hex ++ " is missing seen_pos"))
      | none =>
        Except.error (Error.AircraftMissingData
          ("Aircraft " ++ aircraft.hex ++ " is missing geometric altitude"))
    | none =>
      Except.error (Error.AircraftMissingData
        ("Aircraft " ++ aircraft.hex ++ " is missing ground speed data"))
  | _, _ =>
    Except.error (Error.AircraftMissingData
      ("Aircraft " ++ aircraft.hex ++ " is missing position data"))

/-- Folds one more Snapshot into a Track (`Ac::update`). The Rust method
reads `aircraft.lon.unwrap()` and `aircraft.lat.unwrap()` and panics when the
position is absent; the panic is modelled as `none`. -/
def Ac.update (self : Ac) (now : Int) (aircraft : Aircraft) : Option Ac :=
  match aircraft.lon, aircraft.lat with
  | some lon, some lat =>
    let s1 :=
      match aircraft.ground_speed_knots with
      | some spd =>
        let s0 := { self with cur_speed := spd,
                              max_speed := max self.max_speed spd }
        if s0.cur_speed > INTERCEPTOR_MIN_SPEED_KTS then
          { s0 with time_seen_fast := some now,
                    fast_count := s0.fast_count + 1 }
        else
          s0
      | none => self
    let new_alt :=
      match aircraft.geometric_altitude with
      | some alt => alt
      | none =>
        match aircraft.barometric_altitude with
        | some b => alt_number b
        | none => 0
    let cs := s1.coords ++ [(now, lon, lat)]
    some
      { s1 with
          cur_alt := new_alt
          is_on_ground := aircraft_is_on_ground aircraft
          seen := now
          coords := if cs.length > 40 then cs.drop 1 else cs }
  | _, _ => none

/-- Whole minutes in a signed duration of `secs` seconds, truncating toward
zero (chrono `Duration::num_minutes`, computed with Rust `i64` division). -/
def numMinutes (secs : Int) : Int := Int.tdiv secs 60

/-- Interceptor-candidate classification (`Ac::is_fast_mover`). -/
def Ac.is_fast_mover (self : Ac) (now : Int) : Bool :=
  match self.time_seen_fast with
  | some time_seen_fast =>
    let elapsed := now - time_seen_fast
    decide (numMinutes elapsed < INTERCEPTOR_TIMEOUT_MINS)
      && decide (self.fast_count > 10)
      && !self.is_on_ground
  | none => false

/-- Target-of-interest classification (`Ac::is_potential_toi`). -/
def Ac.is_potential_toi (self : Ac) : Bool :=
  decide (self.cur_speed > TARGET_MIN_SPEED_KTS)
    && decide (self.cur_speed < TARGET_MAX_SPEED_KTS)
    && !self.is_on_ground

/-- Folds a list of timestamped Snapshots into a Track by repeated
`Ac.update`, failing as soon as one update fails. -/
def Ac.applyUpdates : Ac → List (Int × Aircraft) → Option Ac
  | ac, [] => some ac
  | ac, (now, a) :: rest =>
    match ac.update now a with
    | some ac1 => Ac.applyUpdates ac1 rest
    | none => none

/-- Tracks reachable from one successful creation (`Ac.new`) followed by any
sequence of successful updates (`Ac.update`). -/
inductive Reachable : Ac → Prop where
  | create : ∀ now a ac, Ac.new now a = Except.ok ac → Reachable ac
  | step : ∀ ac now a ac1, Reachable ac → ac.update now a = some ac1 →
      Reachable ac1

/-- Concrete Snapshot: position (1, 2), ground speed 100 kt, geometric
altitude 10000 ft, no barometric reading, position last updated 5 s ago,
last contact 10 s ago. -/
def slowDelaySnap : Aircraft :=
  { hex := "c0ffee", lon := some 1, lat := some 2,
    ground_speed_knots := some 100, geometric_altitude := some 10000,
    barometric_altitude := none, seen_pos := some 5, seen := 10 }

/-- Concrete Snapshot with no ground speed but position present. -/
def noSpeedSnap : Aircraft :=
  { slowDelaySnap with ground_speed_knots := none }

/-- The Track produced by `Ac.new 100 slowDelaySnap`. -/
def slowDelayTrack : Ac :=
  { hex := "c0ffee", coords := [(100, 1, 2)], max_speed := 100,
    cur_speed := 100, cur_alt := 10000, is_on_ground := false,
    time_seen_fast := none, fast_count := 0, seen := 95 }

/-- Concrete Snapshot of a fast aircraft: 400 kt, airborne, zero reporting
delays. -/
def fastSnap : Aircraft :=
  { hex := "ff1", lon := some 1, lat := some 2,
    ground_speed_knots := some 400, geometric_altitude := some 10000,
    barometric_altitude := none, seen_pos := some 0, seen := 0 }

/-- The same aircraft as `fastSnap`, now reporting 100 kt. -/
def slowSnap : Aircraft :=
  { fastSnap with ground_speed_knots := some 100 }

/-- The Track produced by `Ac.new 0 fastSnap`. -/
def fastTrack0 : Ac :=
  { hex := "ff1", coords := [(0, 1, 2)], max_speed := 400,
    cur_speed := 400, cur_alt := 10000, is_on_ground := false,
    time_seen_fast := some 0, fast_count := 1, seen := 0 }

/-- The Track produced by `fastTrack0.update 0 slowSnap`. -/
def fastTrack1 : Ac :=
  { fastTrack0 with coords := [(0, 1, 2), (0, 1, 2)], cur_speed := 100 }

/-- The Track produced by `fastTrack0.update 0 fastSnap`. -/
def fastTrack2 : Ac :=
  { fastTrack0 with coords := [(0, 1, 2), (0, 1, 2)], fast_count := 2 }

/-- The Track produced by `fastTrack0.update 7 noSpeedSnap`. -/
def frameTrack : Ac :=
  { fastTrack0 with coords := [(0, 1, 2), (7, 1, 2)], seen := 7 }

/-- A Track that was created fast, updated fast ten more times, then updated
once at 100 kt, all at time 0: it retains the fast latch (`fast_count = 11`,
`time_seen_fast = some 0`) while its current speed is in the target band. -/
def latchTrack : Ac :=
  { hex := "ff1", coords := List.replicate 12 (0, 1, 2), max_speed := 400,
    cur_speed := 100, cur_alt := 10000, is_on_ground := false,
    time_seen_fast := some 0, fast_count := 11, seen := 0 }

deriving instance DecidableEq for Except

example : Ac.new 100 slowDelaySnap = Except.ok slowDelayTrack := by decide
example : Ac.new 0 fastSnap = Except.ok fastTrack0 := by decide
example : fastTrack0.update 0 slowSnap = some fastTrack1 := by decide
example : fastTrack0.update 0 fastSnap = some fastTrack2 := by decide
example : fastTrack0.update 7 noSpeedSnap = some frameTrack := by decide

set_option maxRecDepth 4000 in
example : fastTrack0.applyUpdates
    (List.replicate 10 (0, fastSnap) ++ [(0, slowSnap)]) = some latchTrack := by
  decide

/-- Full characterization of a successful `Ac.update`: position must be
present, history is appended and trimmed, altitude / ground status / seen are
recomputed, and the speed-derived fields change exactly when a ground speed
is present (with the fast latch touched exactly when it exceeds the
interceptor threshold). -/
theorem Ac.update_fields (ac : Ac) (now : Int) (a : Aircraft) (ac1 : Ac)
    (h : ac.update now a = some ac1) :
    (∃ lon lat, a.lon = some lon ∧ a.lat = some lat ∧
      ac1.coords = (let cs := ac.coords ++ [(now, lon, lat)];
        if cs.length > 40 then cs.drop 1 else cs)) ∧
    ac1.hex = ac.hex ∧
    ac1.cur_alt = (match a.geometric_altitude with
      | some alt => alt
      | none =>
        match a.barometric_altitude with
        | some b => alt_number b
        | none => 0) ∧
    ac1.is_on_ground = aircraft_is_on_ground a ∧
    ac1.seen = now ∧
    (match a.ground_speed_knots with
     | none => ac1.cur_speed = ac.cur_speed ∧ ac1.max_speed = ac.max_speed ∧
         ac1.time_seen_fast = ac.time_seen_fast ∧
         ac1.fast_count = ac.fast_count
     | some spd => ac1.cur_speed = spd ∧
         ac1.max_speed = max ac.max_speed spd ∧
         (if spd > INTERCEPTOR_MIN_SPEED_KTS then
            ac1.time_seen_fast = some now ∧
              ac1.fast_count = ac.fast_count + 1
          else
            ac1.time_seen_fast = ac.time_seen_fast ∧
              ac1.fast_count = ac.fast_count)) := by
  rcases hlon : a.lon with _ | lon <;> rcases hlat : a.lat with _ | lat
  · simp [Ac.update, hlon, hlat] at h
  · simp [Ac.update, hlon, hlat] at h
  · simp [Ac.update, hlon, hlat] at h
  · rcases hspd : a.ground_speed_knots with _ | spd
    · simp only [Ac.update, hlon, hlat, hspd, Option.some.injEq] at h
      subst h
      exact ⟨⟨lon, lat, rfl, rfl, rfl⟩, rfl, rfl, rfl, rfl, by
        simp [hspd]⟩
    · by_cases hf : spd > INTERCEPTOR_MIN_SPEED_KTS
      · simp only [Ac.update, hlon, hlat, hspd, if_pos hf,
          Option.some.injEq] at h
        subst h
        exact ⟨⟨lon, lat, rfl, rfl, rfl⟩, rfl, rfl, rfl, rfl, by
          simp [hspd, if_pos hf]⟩
      · simp only [Ac.update, hlon, hlat, hspd, if_neg hf,
          Option.some.injEq] at h
        subst h
        exact ⟨⟨lon, lat, rfl, rfl, rfl⟩, rfl, rfl, rfl, rfl, by
          simp [hspd, if_neg hf]⟩

/-- Full characterization of a successful `Ac.new`: all four required fields
are present and the resulting Track is exactly the record built from them. -/
theorem Ac.new_ok_spec (now : Int) (a : Aircraft) (t : Ac)
    (h : Ac.new now a = Except.ok t) :
    ∃ lon lat spd alt sp,
      a.lon = some lon ∧ a.lat = some lat ∧
      a.ground_speed_knots = some spd ∧ a.geometric_altitude = some alt ∧
      a.seen_pos = some sp ∧
      t = { hex := a.hex
            coords := [(now, lon, lat)]
            max_speed := spd
            cur_speed := spd
            cur_alt := alt
            is_on_ground := aircraft_is_on_ground a
            time_seen_fast :=
              if decide (spd > INTERCEPTOR_MIN_SPEED_KTS) then
                some (now - (sp : Int))
              else none
            fast_count := if decide (spd > INTERCEPTOR_MIN_SPEED_KTS) then 1
              else 0
            seen := now - (sp : Int) } := by
  rcases hlon : a.lon with _ | lon <;> rcases hlat : a.lat with _ | lat
  · simp [Ac.new, hlon, hlat] at h
  · simp [Ac.new, hlon, hlat] at h
  · simp [Ac.new, hlon, hlat] at h
  · rcases hspd : a.ground_speed_knots with _ | spd
    · simp [Ac.new, hlon, hlat, hspd] at h
    · rcases halt : a.geometric_altitude with _ | alt
      · simp [Ac.new, hlon, hlat, hspd, halt] at h
      · rcases hsp : a.seen_pos with _ | sp
        · simp [Ac.new, hlon, hlat, hspd, halt, hsp] at h
        · simp only [Ac.new, hlon, hlat, hspd, halt, hsp,
            Except.ok.injEq] at h
          exact ⟨lon, lat, spd, alt, sp, rfl, rfl, rfl, rfl, rfl, h.symm⟩

/-- Reachability is preserved by folding any list of Snapshots. -/
theorem Reachable.of_applyUpdates {ac ac1 : Ac} {l : List (Int × Aircraft)}
    (hr : Reachable ac) (h : ac.applyUpdates l = some ac1) : Reachable ac1 := by
  induction l generalizing ac with
  | nil =>
    simp only [Ac.applyUpdates, Option.some.injEq] at h
    exact h ▸ hr
  | cons p rest ih =>
    obtain ⟨now, a⟩ := p
    unfold Ac.applyUpdates at h
    cases hu : ac.update now a with
    | none => rw [hu] at h; cases h
    | some ac2 =>
      rw [hu] at h
      exact ih (Reachable.step ac now a ac2 hr hu) h

/-- The (timestamp, position) pair a timestamped Snapshot inserts into the
history, when it carries a position. -/
def insPos (p : Int × Aircraft) : Option (Int × ℚ × ℚ) :=
  match p.2.lon, p.2.lat with
  | some lon, some lat => some (p.1, lon, lat)
  | _, _ => none

/-- All (timestamp, position) pairs ever inserted into a Track's history: the
creation entry followed by one entry per update Snapshot that carries a
position. -/
def insertedHistory (now0 : Int) (a0 : Aircraft)
    (us : List (Int × Aircraft)) : List (Int × ℚ × ℚ) :=
  (match a0.lon, a0.lat with
   | some lon, some lat => [(now0, lon, lat)]
   | _, _ => []) ++ us.filterMap insPos

/-- One append-then-trim step, rephrased on the full inserted list: pushing
onto the suffix of the last forty entries and evicting the oldest when over
capacity yields the last-forty suffix of the extended list. -/
theorem pushTrim_drop (l : List (Int × ℚ × ℚ)) (p : Int × ℚ × ℚ) :
    (if (l.drop (l.length - 40) ++ [p]).length > 40
     then (l.drop (l.length - 40) ++ [p]).drop 1
     else l.drop (l.length - 40) ++ [p])
      = (l ++ [p]).drop ((l ++ [p]).length - 40) := by
  by_cases hl : 40 ≤ l.length
  · have h40 : (l.drop (l.length - 40)).length = 40 := by
      rw [List.length_drop]; omega
    have hlen : (l.drop (l.length - 40) ++ [p]).length = 41 := by
      rw [List.length_append, h40]; rfl
    rw [if_pos (by rw [hlen]; omega)]
    rw [List.drop_append_of_le_length (by rw [h40]; omega)]
    rw [List.drop_drop]
    have hidx : (l ++ [p]).length - 40 = l.length - 40 + 1 := by
      rw [List.length_append]; simp; omega
    rw [hidx, List.drop_append_of_le_length (by omega)]
  · have h0 : l.length - 40 = 0 := by omega
    have hlen : (l ++ [p]).length = l.length + 1 := by simp
    rw [h0, List.drop_zero, if_neg (by rw [hlen]; omega), hlen]
    have h1 : l.length + 1 - 40 = 0 := by omega
    rw [h1, List.drop_zero]

/-- After any successful sequence of updates, the history is the suffix of
the last forty entries of the full inserted list. -/
theorem applyUpdates_coords_drop (us : List (Int × Aircraft)) :
    ∀ (ac tf : Ac) (l : List (Int × ℚ × ℚ)),
      ac.coords = l.drop (l.length - 40) →
      ac.applyUpdates us = some tf →
      tf.coords = (l ++ us.filterMap insPos).drop
        ((l ++ us.filterMap insPos).length - 40) := by
  induction us with
  | nil =>
    intro ac tf l hinv h
    simp only [Ac.applyUpdates, Option.some.injEq] at h
    subst h
    simpa using hinv
  | cons p rest ih =>
    intro ac tf l hinv h
    obtain ⟨now, a⟩ := p
    unfold Ac.applyUpdates at h
    cases hu : ac.update now a with
    | none => rw [hu] at h; cases h
    | some ac2 =>
      rw [hu] at h
      obtain ⟨⟨lon, lat, hlon, hlat, hc⟩, -⟩ := Ac.update_fields ac now a ac2 hu
      have hinv2 : ac2.coords = (l ++ [(now, lon, lat)]).drop
          ((l ++ [(now, lon, lat)]).length - 40) := by
        rw [hc, hinv]
        exact pushTrim_drop l (now, lon, lat)
      have hres := ih ac2 tf (l ++ [(now, lon, lat)]) hinv2 h
      rw [hres]
      have hcons : ((now, a) :: rest).filterMap insPos
          = (now, lon, lat) :: rest.filterMap insPos := by
        simp [List.filterMap_cons, insPos, hlon, hlat]
      rw [hcons, List.append_assoc]
      rfl

/-- C1: counterexample — creating a Track at `now = 100` from
`slowDelaySnap`, whose position was seen 5 s ago, records the single history
entry at timestamp 100 (the unadjusted `now`), not at the adjusted
`now - seen_pos = 95` the claim requires. -/
theorem C1_counterexample_history_timestamp_is_now :
    Except.map (fun t => t.coords) (Ac.new 100 slowDelaySnap)
        = Except.ok [((100 : Int), (1 : ℚ), (2 : ℚ))] ∧
      Except.map (fun t => t.coords) (Ac.new 100 slowDelaySnap)
        ≠ Except.ok [((95 : Int), (1 : ℚ), (2 : ℚ))] := by
  constructor
  · decide
  · decide

/-- C1 (amended): on success `Ac.new` sets `history` to a single entry whose
timestamp is the observation time `now` itself, with no adjustment by the
seen-since-position duration, paired with the Snapshot's longitude and
latitude. -/
theorem C1_new_history_single_entry_at_now (now : Int) (a : Aircraft) (t : Ac)
    (h : Ac.new now a = Except.ok t) :
    ∃ lon lat, a.lon = some lon ∧ a.lat = some lat ∧
      t.coords = [(now, lon, lat)] := by
  obtain ⟨lon, lat, spd, alt, sp, hlon, hlat, -, -, -, ht⟩ :=
    Ac.new_ok_spec now a t h
  exact ⟨lon, lat, hlon, hlat, by rw [ht]⟩

/-- C1 (amended) witness, instantiated at `now = 100` and `slowDelaySnap`. -/
theorem C1_witness :
    ∃ lon lat, slowDelaySnap.lon = some lon ∧ slowDelaySnap.lat = some lat ∧
      slowDelayTrack.coords = [(100, lon, lat)] :=
  C1_new_history_single_entry_at_now 100 slowDelaySnap slowDelayTrack
    (by decide)

/-- C3: counterexample — creating a Track at `now = 100` from
`slowDelaySnap`, whose position was updated 5 s ago (`seen_pos`) and which
was last heard from 10 s ago (`seen`), sets the Track's `seen` to
`95 = now - seen_pos`, not to `90 = now - seen_since_last_contact` as the
claim requires. -/
theorem C3_counterexample_seen_uses_seen_pos :
    Except.map (fun t => t.seen) (Ac.new 100 slowDelaySnap)
        = Except.ok ((100 : Int) - (slowDelaySnap.seen_pos.getD 0 : Int)) ∧
      Except.map (fun t => t.seen) (Ac.new 100 slowDelaySnap)
        ≠ Except.ok ((100 : Int) - (slowDelaySnap.seen : Int)) := by
  constructor
  · decide
  · decide

/-- C3 (amended): on success `Ac.new` sets `seen` to `now` minus the
Snapshot's seen-since-position duration (`seen_pos`), not the
seen-since-last-contact duration. -/
theorem C3_new_seen_from_seen_pos (now : Int) (a : Aircraft) (t : Ac)
    (h : Ac.new now a = Except.ok t) :
    ∃ sp, a.seen_pos = some sp ∧ t.seen = now - (sp : Int) := by
  obtain ⟨lon, lat, spd, alt, sp, -, -, -, -, hsp, ht⟩ :=
    Ac.new_ok_spec now a t h
  exact ⟨sp, hsp, by rw [ht]⟩

/-- C3 (amended) witness, instantiated at `now = 100` and `slowDelaySnap`. -/
theorem C3_witness :
    ∃ sp, slowDelaySnap.seen_pos = some sp ∧
      slowDelayTrack.seen = 100 - (sp : Int) :=
  C3_new_seen_from_seen_pos 100 slowDelaySnap slowDelayTrack (by decide)

/-- C2: counterexample — `latchTrack` is reachable (creation from `fastSnap`,
ten further fast updates, then one 100 kt update, all at time 0) and
satisfies `is_fast_mover` at time 0 and `is_potential_toi` simultaneously:
the fast latch persists for three minutes after the last fast observation
even when the current speed has dropped into the target band. -/
theorem C2_counterexample_both_predicates :
    Reachable latchTrack ∧ latchTrack.is_fast_mover 0 = true ∧
      latchTrack.is_potential_toi = true := by
  refine ⟨?_, by decide, by decide⟩
  have h0 : Ac.new 0 fastSnap = Except.ok fastTrack0 := by decide
  have h1 : fastTrack0.applyUpdates
      (List.replicate 10 (0, fastSnap) ++ [(0, slowSnap)])
        = some latchTrack := by
    set_option maxRecDepth 4000 in decide
  exact Reachable.of_applyUpdates (Reachable.create 0 fastSnap fastTrack0 h0)
    h1

/-- C2 (amended): the two predicates are not mutually exclusive — the fast
latch can outlive a drop into the target speed band (see the counterexample)
— but the speed bands do not overlap within a single observation: an update
that carries a ground speed and leaves the Track a potential target of
interest cannot have touched the fast-mover latch. -/
theorem C2_bands_disjoint_within_update (ac : Ac) (now : Int) (a : Aircraft)
    (ac1 : Ac) (spd : ℚ) (h : ac.update now a = some ac1)
    (hs : a.ground_speed_knots = some spd)
    (ht : ac1.is_potential_toi = true) :
    ac1.fast_count = ac.fast_count ∧
      ac1.time_seen_fast = ac.time_seen_fast := by
  obtain ⟨-, -, -, -, -, hsp⟩ := Ac.update_fields ac now a ac1 h
  rw [hs] at hsp
  obtain ⟨hcur, -, hif⟩ := hsp
  by_cases hf : spd > INTERCEPTOR_MIN_SPEED_KTS
  · exfalso
    simp only [Ac.is_potential_toi, Bool.and_eq_true, decide_eq_true_eq,
      Bool.not_eq_true'] at ht
    have hlt : spd < TARGET_MAX_SPEED_KTS := by rw [← hcur]; exact ht.1.2
    have : INTERCEPTOR_MIN_SPEED_KTS < TARGET_MAX_SPEED_KTS :=
      lt_trans hf hlt
    norm_num [INTERCEPTOR_MIN_SPEED_KTS, TARGET_MAX_SPEED_KTS] at this
  · rw [if_neg hf] at hif
    exact ⟨hif.2, hif.1⟩

/-- C2 (amended) witness: the 100 kt update of `fastTrack0` leaves the fast
latch untouched. -/
theorem C2_witness :
    fastTrack1.fast_count = fastTrack0.fast_count ∧
      fastTrack1.time_seen_fast = fastTrack0.time_seen_fast :=
  C2_bands_disjoint_within_update fastTrack0 0 slowSnap fastTrack1 100
    (by decide) (by decide) (by decide)

/-- C4: over any successful creation-plus-updates sequence, the history
length always stays between 1 and 40, and the history equals the inserted
(timestamp, position) pairs with everything but the last forty dropped:
strict FIFO eviction of the oldest entry, in insertion order, never
reordered. -/
theorem C4_history_bounded_fifo (now0 : Int) (a0 : Aircraft) (t0 tf : Ac)
    (us : List (Int × Aircraft))
    (h0 : Ac.new now0 a0 = Except.ok t0)
    (hu : t0.applyUpdates us = some tf) :
    (1 ≤ tf.coords.length ∧ tf.coords.length ≤ 40) ∧
    tf.coords = (insertedHistory now0 a0 us).drop
      ((insertedHistory now0 a0 us).length - 40) := by
  obtain ⟨lon, lat, spd, alt, sp, hlon, hlat, -, -, -, ht⟩ :=
    Ac.new_ok_spec now0 a0 t0 h0
  have hinv : t0.coords = ([(now0, lon, lat)] : List (Int × ℚ × ℚ)).drop
      (([(now0, lon, lat)] : List (Int × ℚ × ℚ)).length - 40) := by
    rw [ht]
    rfl
  have hmain := applyUpdates_coords_drop us t0 tf [(now0, lon, lat)] hinv hu
  have hins : insertedHistory now0 a0 us
      = [(now0, lon, lat)] ++ us.filterMap insPos := by
    simp [insertedHistory, hlon, hlat]
  have hN : 1 ≤ ([(now0, lon, lat)] ++ us.filterMap insPos).length := by
    simp
  refine ⟨⟨?_, ?_⟩, ?_⟩
  · rw [hmain, List.length_drop]; omega
  · rw [hmain, List.length_drop]; omega
  · rw [hmain, hins]

/-- C4 witness: creation from `fastSnap` followed by one update. -/
theorem C4_witness :
    (1 ≤ fastTrack1.coords.length ∧ fastTrack1.coords.length ≤ 40) ∧
      fastTrack1.coords = (insertedHistory 0 fastSnap [(0, slowSnap)]).drop
        ((insertedHistory 0 fastSnap [(0, slowSnap)]).length - 40) :=
  C4_history_bounded_fifo 0 fastSnap fastTrack0 fastTrack1 [(0, slowSnap)]
    (by decide) (by decide)

/-- A Track with eleven fast observations whose latest fast observation was
179 s before time 0, airborne. -/
def fastWitnessTrack : Ac :=
  { hex := "a1b2", coords := [(0, 1, 2)], max_speed := 400, cur_speed := 400,
    cur_alt := 10000, is_on_ground := false, time_seen_fast := some (-179),
    fast_count := 11, seen := 0 }

/-- An airborne Track currently moving at 80.01 kt. -/
def toiWitnessTrack : Ac :=
  { hex := "a1b3", coords := [(0, 1, 2)], max_speed := 100,
    cur_speed := 8001 / 100, cur_alt := 10000, is_on_ground := false,
    time_seen_fast := none, fast_count := 0, seen := 0 }

/-- C5: `is_fast_mover` at `now` holds iff the fast latch is present, the
elapsed whole minutes (truncating) since it are strictly under the 3-minute
timeout, `fast_count` exceeds 10, and the Track is not on ground; with the
claim's boundary instances at 2 min 59 s (fast mover) and 3 min 01 s (not). -/
theorem C5_is_fast_mover_iff (ac : Ac) (now : Int) :
    (ac.is_fast_mover now = true ↔
      ∃ tsf, ac.time_seen_fast = some tsf ∧
        numMinutes (now - tsf) < INTERCEPTOR_TIMEOUT_MINS ∧
        10 < ac.fast_count ∧ ac.is_on_ground = false) ∧
    (ac.fast_count = 11 → ac.is_on_ground = false →
      ac.time_seen_fast = some (now - 179) →
      ac.is_fast_mover now = true) ∧
    (ac.fast_count = 11 → ac.is_on_ground = false →
      ac.time_seen_fast = some (now - 181) →
      ac.is_fast_mover now = false) := by
  refine ⟨?_, ?_, ?_⟩
  · cases hts : ac.time_seen_fast with
    | none => simp [Ac.is_fast_mover, hts]
    | some tsf =>
      simp [Ac.is_fast_mover, hts, and_assoc]
  · intro hfc hog hts
    have h179 : now - (now - 179) = 179 := by ring
    simp [Ac.is_fast_mover, hts, hfc, hog, h179]
    decide
  · intro hfc hog hts
    have h181 : now - (now - 181) = 181 := by ring
    simp [Ac.is_fast_mover, hts, hfc, hog, h181]
    decide

/-- C5 witness: a Track last seen fast 179 s before time 0 with eleven fast
observations, airborne, is classified a fast mover at time 0. -/
theorem C5_witness : fastWitnessTrack.is_fast_mover 0 = true :=
  (C5_is_fast_mover_iff fastWitnessTrack 0).2.1 rfl rfl (by decide)

/-- C6: `is_potential_toi` holds iff the current speed lies strictly between
80 kt and 250 kt and the Track is not on ground; both bounds exclusive, so
80 kt and 250 kt are not targets while 80.01 kt airborne is. -/
theorem C6_is_potential_toi_iff (ac : Ac) :
    (ac.is_potential_toi = true ↔
      TARGET_MIN_SPEED_KTS < ac.cur_speed ∧
        ac.cur_speed < TARGET_MAX_SPEED_KTS ∧ ac.is_on_ground = false) ∧
    (ac.cur_speed = 80 → ac.is_potential_toi = false) ∧
    (ac.cur_speed = 250 → ac.is_potential_toi = false) ∧
    (ac.cur_speed = 8001 / 100 → ac.is_on_ground = false →
      ac.is_potential_toi = true) := by
  refine ⟨?_, ?_, ?_, ?_⟩
  · simp [Ac.is_potential_toi, and_assoc]
  · intro hc
    simp [Ac.is_potential_toi, hc, TARGET_MIN_SPEED_KTS]
  · intro hc
    simp [Ac.is_potential_toi, hc, TARGET_MAX_SPEED_KTS]
  · intro hc hog
    rw [Ac.is_potential_toi, hc, hog]
    norm_num [TARGET_MIN_SPEED_KTS, TARGET_MAX_SPEED_KTS]

/-- C6 witness: an airborne Track at 80.01 kt is a potential target. -/
theorem C6_witness : toiWitnessTrack.is_potential_toi = true :=
  (C6_is_potential_toi_iff toiWitnessTrack).2.2.2 rfl rfl

/-- C7: `aircraft_is_on_ground` holds iff the barometric field carries the
explicit on-ground marker, or the geometric altitude is present and strictly
below 500 ft; with the claim's boundary instances at 499 ft and 501 ft with
no on-ground marker. -/
theorem C7_on_ground_iff (a : Aircraft) :
    (aircraft_is_on_ground a = true ↔
      a.barometric_altitude = some AltitudeOrGround.OnGround ∨
        ∃ g, a.geometric_altitude = some g ∧ g < 500) ∧
    (a.barometric_altitude ≠ some AltitudeOrGround.OnGround →
      a.geometric_altitude = some 499 → aircraft_is_on_ground a = true) ∧
    (a.barometric_altitude ≠ some AltitudeOrGround.OnGround →
      a.geometric_altitude = some 501 → aircraft_is_on_ground a = false) := by
  refine ⟨?_, ?_, ?_⟩
  · cases hb : a.barometric_altitude with
    | none =>
      cases hg : a.geometric_altitude with
      | none => simp [aircraft_is_on_ground, hb, hg]
      | some g => simp [aircraft_is_on_ground, hb, hg]
    | some b =>
      cases b with
      | OnGround => simp [aircraft_is_on_ground, hb]
      | Altitude x =>
        cases hg : a.geometric_altitude with
        | none => simp [aircraft_is_on_ground, hb, hg]
        | some g => simp [aircraft_is_on_ground, hb, hg]
  · intro hb hg
    simp [aircraft_is_on_ground, hg]
  · intro hb hg
    cases hbv : a.barometric_altitude with
    | none => simp [aircraft_is_on_ground, hbv, hg]
    | some b =>
      cases b with
      | OnGround => exact absurd hbv hb
      | Altitude x => simp [aircraft_is_on_ground, hbv, hg]

/-- A Snapshot at geometric altitude 499 ft with no barometric reading. -/
def lowSnap : Aircraft :=
  { slowDelaySnap with geometric_altitude := some 499 }

/-- C7 witness: geometric altitude 499 ft and no on-ground marker. -/
theorem C7_witness : aircraft_is_on_ground lowSnap = true :=
  (C7_on_ground_iff lowSnap).2.1 (by decide) rfl

/-- C8: an update increments `fast_count` by exactly one and stamps
`time_seen_fast := now` iff its Snapshot carries a ground speed strictly
above the 350 kt interceptor threshold; otherwise (speed absent, or at most
the threshold) both fields are unchanged. -/
theorem C8_update_fast_latch (ac : Ac) (now : Int) (a : Aircraft) (ac1 : Ac)
    (h : ac.update now a = some ac1) :
    ((∃ spd, a.ground_speed_knots = some spd ∧
        spd > INTERCEPTOR_MIN_SPEED_KTS) →
      ac1.fast_count = ac.fast_count + 1 ∧ ac1.time_seen_fast = some now) ∧
    ((∀ spd, a.ground_speed_knots = some spd →
        spd ≤ INTERCEPTOR_MIN_SPEED_KTS) →
      ac1.fast_count = ac.fast_count ∧
        ac1.time_seen_fast = ac.time_seen_fast) := by
  obtain ⟨-, -, -, -, -, hsp⟩ := Ac.update_fields ac now a ac1 h
  constructor
  · rintro ⟨spd, hs, hf⟩
    rw [hs] at hsp
    obtain ⟨-, -, hif⟩ := hsp
    rw [if_pos hf] at hif
    exact ⟨hif.2, hif.1⟩
  · intro hall
    cases hs : a.ground_speed_knots with
    | none =>
      rw [hs] at hsp
      exact ⟨hsp.2.2.2, hsp.2.2.1⟩
    | some spd =>
      rw [hs] at hsp
      obtain ⟨-, -, hif⟩ := hsp
      rw [if_neg (not_lt.mpr (hall spd hs))] at hif
      exact ⟨hif.2, hif.1⟩

/-- C8 witness: a 400 kt update of `fastTrack0` stamps the latch and bumps
the count. -/
theorem C8_witness :
    fastTrack2.fast_count = fastTrack0.fast_count + 1 ∧
      fastTrack2.time_seen_fast = some 0 :=
  (C8_update_fast_latch fastTrack0 0 fastSnap fastTrack2 (by decide)).1
    ⟨400, rfl, by norm_num [INTERCEPTOR_MIN_SPEED_KTS]⟩

/-- C9: a Snapshot missing position, ground speed, geometric altitude or the
seen-since-position duration cannot create a Track: `Ac.new` returns the
missing-data error, whose message names the missing field and the aircraft's
hex identifier, and no Track is produced; in particular a Snapshot with
position but no ground speed fails with the ground-speed message. -/
theorem C9_new_missing_data (now : Int) (a : Aircraft) :
    ((a.lon = none ∨ a.lat = none ∨ a.ground_speed_knots = none ∨
        a.geometric_altitude = none ∨ a.seen_pos = none) →
      ∃ msg, Ac.new now a = Except.error (Error.AircraftMissingData msg) ∧
        (((a.lon = none ∨ a.lat = none) ∧
            msg = "Aircraft " ++ a.hex ++ " is missing position data") ∨
          (a.ground_speed_knots = none ∧
            msg = "Aircraft " ++ a.hex ++ " is missing ground speed data") ∨
          (a.geometric_altitude = none ∧
            msg = "Aircraft " ++ a.hex ++ " is missing geometric altitude") ∨
          (a.seen_pos = none ∧
            msg = "Aircraft " ++ a.hex ++ " is missing seen_pos"))) ∧
    (∀ lon lat, a.lon = some lon → a.lat = some lat →
      a.ground_speed_knots = none →
      Ac.new now a = Except.error (Error.AircraftMissingData
        ("Aircraft " ++ a.hex ++ " is missing ground speed data"))) := by
  constructor
  · intro hmiss
    rcases hlon : a.lon with _ | lon
    · exact ⟨"Aircraft " ++ a.hex ++ " is missing position data",
        by simp [Ac.new, hlon], Or.inl ⟨Or.inl rfl, rfl⟩⟩
    · rcases hlat : a.lat with _ | lat
      · exact ⟨"Aircraft " ++ a.hex ++ " is missing position data",
          by simp [Ac.new, hlon, hlat], Or.inl ⟨Or.inr rfl, rfl⟩⟩
      · rcases hspd : a.ground_speed_knots with _ | spd
        · exact ⟨"Aircraft " ++ a.hex ++ " is missing ground speed data",
            by simp [Ac.new, hlon, hlat, hspd], Or.inr (Or.inl ⟨rfl, rfl⟩)⟩
        · rcases halt : a.geometric_altitude with _ | alt
          · exact ⟨"Aircraft " ++ a.hex ++ " is missing geometric altitude",
              by simp [Ac.new, hlon, hlat, hspd, halt],
              Or.inr (Or.inr (Or.inl ⟨rfl, rfl⟩))⟩
          · rcases hsp : a.seen_pos with _ | sp
            · exact ⟨"Aircraft " ++ a.hex ++ " is missing seen_pos",
                by simp [Ac.new, hlon, hlat, hspd, halt, hsp],
                Or.inr (Or.inr (Or.inr ⟨rfl, rfl⟩))⟩
            · simp [hlon, hlat, hspd, halt, hsp] at hmiss
  · intro lon lat hlon hlat hspd
    simp [Ac.new, hlon, hlat, hspd]

/-- C9 witness: `noSpeedSnap` has position but no ground speed. -/
theorem C9_witness :
    Ac.new 100 noSpeedSnap = Except.error (Error.AircraftMissingData
      ("Aircraft " ++ noSpeedSnap.hex ++ " is missing ground speed data")) :=
  (C9_new_missing_data 100 noSpeedSnap).2 1 2 rfl rfl rfl

/-- C10: an update whose Snapshot has no ground speed leaves `cur_speed`,
`max_speed`, `time_seen_fast` and `fast_count` unchanged, while it still
recomputes the altitude (geometric, else barometric, else 0), the ground
status and `seen`, and still appends to the history. -/
theorem C10_speed_absent_frame (ac : Ac) (now : Int) (a : Aircraft) (ac1 : Ac)
    (h : ac.update now a = some ac1) (hs : a.ground_speed_knots = none) :
    ac1.cur_speed = ac.cur_speed ∧ ac1.max_speed = ac.max_speed ∧
    ac1.time_seen_fast = ac.time_seen_fast ∧
    ac1.fast_count = ac.fast_count ∧
    ac1.cur_alt = (match a.geometric_altitude with
      | some alt => alt
      | none =>
        match a.barometric_altitude with
        | some b => alt_number b
        | none => 0) ∧
    ac1.is_on_ground = aircraft_is_on_ground a ∧
    ac1.seen = now ∧
    (∃ lon lat, a.lon = some lon ∧ a.lat = some lat ∧
      ac1.coords = (if (ac.coords ++ [(now, lon, lat)]).length > 40
        then (ac.coords ++ [(now, lon, lat)]).drop 1
        else ac.coords ++ [(now, lon, lat)])) := by
  obtain ⟨⟨lon, lat, hlon, hlat, hc⟩, -, halt, hog, hseen, hsp⟩ :=
    Ac.update_fields ac now a ac1 h
  rw [hs] at hsp
  exact ⟨hsp.1, hsp.2.1, hsp.2.2.1, hsp.2.2.2, halt, hog, hseen,
    lon, lat, hlon, hlat, hc⟩

/-- C10 witness: the speed-free update of `fastTrack0` at time 7. -/
theorem C10_witness :
    frameTrack.cur_speed = fastTrack0.cur_speed ∧
      frameTrack.max_speed = fastTrack0.max_speed ∧
      frameTrack.time_seen_fast = fastTrack0.time_seen_fast ∧
      frameTrack.fast_count = fastTrack0.fast_count ∧
      frameTrack.cur_alt = (match noSpeedSnap.geometric_altitude with
        | some alt => alt
        | none =>
          match noSpeedSnap.barometric_altitude with
          | some b => alt_number b
          | none => 0) ∧
      frameTrack.is_on_ground = aircraft_is_on_ground noSpeedSnap ∧
      frameTrack.seen = 7 ∧
      (∃ lon lat, noSpeedSnap.lon = some lon ∧ noSpeedSnap.lat = some lat ∧
        frameTrack.coords =
          (if (fastTrack0.coords ++ [(7, lon, lat)]).length > 40
           then (fastTrack0.coords ++ [(7, lon, lat)]).drop 1
           else fastTrack0.coords ++ [(7, lon, lat)])) :=
  C10_speed_absent_frame fastTrack0 7 noSpeedSnap frameTrack (by decide) rfl
